import Mathlib

/-!
Shallow embedding of the `email-simple` module (src/src/index.ts) and proofs
about its behaviour.

Modelling conventions:
* JavaScript strings are Lean `String`; a possibly-`undefined` string value is
  `Option String` (`none` = `undefined` / field absent).
* JavaScript truthiness on strings: the empty string and `undefined` are falsy
  (`jsFalsy`), and `x || d` on such values is `jsOr`.
* The nondeterministic `crypto.randomUUID()` result is passed to the handler as
  an explicit `trackingId : String` argument.
* The external `fetch` to the Resend API is modelled by a `DispatchOutcome`
  argument: either the network call itself threw (`exn`), or an HTTP response
  arrived, observed through the methods the source uses — `status`, `text()`
  (the raw body text) and `json()` projected to its `id` field.
* The handler is instrumented to return, besides its result, the list of
  provider payloads it sent (one entry per `sendViaResend` call) and the list
  of analytics events it recorded, so that "no provider call is attempted" and
  "one analytics event is recorded" are stateable.
-/

namespace EmailSimple

/-- JavaScript falsiness of a `string | undefined` value: `undefined` and the
empty string are falsy (this is what `!input.«to»` tests in the source). -/
def jsFalsy : Option String → Bool
  | none => true
  | some s => s == ""

/-- JavaScript `x || d` for `x : string | undefined`: yields `d` when `x` is
`undefined` or the empty string (source lines 140-141). -/
def jsOr : Option String → String → String
  | none, d => d
  | some s, d => if s == "" then d else s

/-- Environment bindings (source `interface Env`): only the Resend API key. -/
structure Env where
  RESEND_API_KEY : String
deriving DecidableEq

/-- The tool context handed to `createSendEmailHandler` by `extractToolContext`.
`userId` and `displayName` are optional context fields; `env` carries the
bindings. The source's additional `context?.` guard covers an `undefined`
context object, which the framework never supplies, so the embedding takes the
context itself as always present with optional fields. -/
structure ToolContext where
  userId : Option String
  displayName : Option String
  env : Env
deriving DecidableEq

/-- `send_email` input. The Zod schema declares `to`, `subject_suffix` and
`text` as required strings, but the handler defensively re-checks their
presence at runtime, so they are embedded as `Option String` (`none` =
absent at runtime); `html` is optional in the schema itself. -/
structure SendEmailInput where
  «to» : Option String
  subject_suffix : Option String
  text : Option String
  html : Option String
deriving DecidableEq

/-- Global single-character replacement on a character list: every occurrence
of `c` is replaced by the string `r`.  This is the meaning of the source's
`.replace(/c/g, r)` for a single-character pattern. -/
def replaceCharList (c : Char) (r : String) : List Char → List Char
  | [] => []
  | x :: xs => (if x = c then r.data else [x]) ++ replaceCharList c r xs

/-- `s.replace(/c/g, r)` for a single-character pattern `c`. -/
def replaceChar (c : Char) (r : String) (s : String) : String :=
  ⟨replaceCharList c r s.data⟩

/-- Source `escapeHtml` (lines 79-86): chained global replaces of
`& < > " '` by their HTML entities, in that order.  The apostrophe character
is written `Char.ofNat 39`. -/
def escapeHtml (s : String) : String :=
  replaceChar (Char.ofNat 39) "&#039;"
    (replaceChar '"' "&quot;"
      (replaceChar '>' "&gt;"
        (replaceChar '<' "&lt;"
          (replaceChar '&' "&amp;" s))))

/-- The abuse-report URL built in `buildFooter` (line 54). -/
def reportUrl (trackingId : String) : String :=
  "https://odel.app/report-abuse?id=" ++ trackingId

/-- Result of `buildFooter`: matching plain-text and HTML fragments. -/
structure Footer where
  text : String
  html : String
deriving DecidableEq

/-- Fragments of the plain-text footer template (source lines 56-62),
written out so decompositions around the interpolated values are direct. -/
def textFooterHead : String :=
  "\n\n───────────────────────────────\nSent on behalf of: "

def textFooterMid1 : String := " (ID: "

def textFooterMid2 : String :=
  ")\nThis is an automated email - please do not reply to this address.\nReport abuse: "

/-- Fragments of the HTML footer template (source lines 64-71). -/
def htmlFooterHead : String :=
  "\n<hr style=\"border: none; border-top: 1px solid #e5e7eb; margin: 24px 0;\">\n<p style=\"font-size: 12px; color: #6b7280; margin: 0;\">\n\t<strong>Sent on behalf of:</strong> "

def htmlFooterMid1 : String := " (ID: "

def htmlFooterMid2 : String :=
  ")<br>\n\t<em>This is an automated email - please do not reply to this address.</em><br>\n\t<a href=\""

def htmlFooterTail : String :=
  "\" style=\"color: #3b82f6; text-decoration: none;\">Report abuse</a>\n</p>\n"

/-- Source `buildFooter` (lines 53-74): template-literal interpolation is
concatenation; the HTML fragment escapes `displayName`, the text fragment
embeds it raw; both embed the abuse-report URL. -/
def buildFooter (userId displayName trackingId : String) : Footer :=
  let rep := reportUrl trackingId
  { text := textFooterHead ++ (displayName ++ (textFooterMid1 ++ (userId ++
      (textFooterMid2 ++ (rep ++ "\n")))))
    html := htmlFooterHead ++ (escapeHtml displayName ++ (htmlFooterMid1 ++ (userId ++
      (htmlFooterMid2 ++ (rep ++ htmlFooterTail))))) }

/-- The JSON body `sendViaResend` posts to the provider (source lines
105-111).  `html = none` means the `html` key is entirely absent from the
serialized object — the `...(html && { html })` spread. -/
structure ResendPayload where
  fromAddr : String
  «to» : String
  subject : String
  text : String
  html : Option String
deriving DecidableEq

/-- Outcome of `response.json()` as observed by the source: either parsing
threw (`invalid`, with the thrown message), or it produced a value whose `id`
property is the given `Option String` (`none` = the `id` field is absent, so
`result.id` is `undefined` — the `as { id: string }` cast is unchecked). -/
inductive JsonOutcome where
  | invalid (message : String)
  | obj (id : Option String)
deriving DecidableEq

/-- A provider HTTP response, observed through `status`, `text()` and
`json()` as the source uses them. -/
structure HttpResponse where
  status : Nat
  text : String
  json : JsonOutcome
deriving DecidableEq

/-- What happened to the `fetch` call: the network call threw with the given
message, or a response arrived. -/
inductive DispatchOutcome where
  | exn (message : String)
  | response (r : HttpResponse)
deriving DecidableEq

/-- `Response.ok` per the fetch specification: status in the range 200-299. -/
def responseOk (status : Nat) : Bool :=
  200 ≤ status && status ≤ 299

/-- Source `sendViaResend` (lines 91-121), instrumented: returns the JSON
payload it posts together with the outcome — `Except.error m` models a thrown
`Error` with message `m`, `Except.ok id` models returning the parsed body,
projected to its (possibly `undefined`) `id` field.  The API key travels in
the `Authorization` header, not in the payload, and is otherwise unobserved. -/
def sendViaResend (apiKey fromAddr «to» subject text : String) (html : Option String)
    (outcome : DispatchOutcome) : ResendPayload × Except String (Option String) :=
  let payload : ResendPayload :=
    { fromAddr := fromAddr, «to» := «to», subject := subject, text := text
      html := match html with
        | some h => if h == "" then none else some h
        | none => none }
  (payload,
    match outcome with
    | .exn m => .error m
    | .response r =>
      if !(responseOk r.status) then
        .error ("Resend API error: " ++ toString r.status ++ " - " ++ r.text)
      else
        match r.json with
        | .invalid m => .error m
        | .obj id => .ok id)

/-- The tagged union returned to the caller.  `success` carries the provider
id as `Option String` because `result.id` can be `undefined` at runtime (the
`as { id: string }` cast in `sendViaResend` is unchecked). -/
inductive SendResult where
  | success (id : Option String) («to» : String)
  | failure (error : String)
deriving DecidableEq

/-- Modelled from the spec: the analytics event of §4.4 (`record(sink,
trackingId, userId, conversationId, displayName, recipient, providerId,
status, textLength)`).  The source under `src/` contains no analytics-writing
code at all, so the embedding never constructs a value of this type; the
structure only types the handler's (always empty) event trace. -/
structure AnalyticsEvent where
  trackingId : String
  userId : String
  conversationId : String
  displayName : String
  recipient : String
  providerId : String
  status : String
  textLength : Nat
deriving DecidableEq

/-- The handler's observable behaviour on one invocation: its returned
result, the provider payloads posted (one per `sendViaResend` call) and the
analytics events recorded. -/
structure HandlerTrace where
  result : SendResult
  providerCalls : List ResendPayload
  analytics : List AnalyticsEvent
deriving DecidableEq

/-- The runtime required-field check (source line 146):
`!input.«to» || !input.subject_suffix || !input.text`. -/
def missingRequired (input : SendEmailInput) : Bool :=
  jsFalsy input.«to» || jsFalsy input.subject_suffix || jsFalsy input.text

/-- Source `createSendEmailHandler` (lines 138-196).  `userId`/`displayName`
defaulting happens once, outside the returned closure, exactly as in the
source; the closure takes the input plus the two effects the environment
supplies: the generated tracking UUID and the dispatch outcome.  Every path
returns a `HandlerTrace`; the catch-all of lines 188-194 is the `.error`
branch.  No path records an analytics event because the source contains no
analytics code. -/
def createSendEmailHandler (context : ToolContext) :
    SendEmailInput → String → DispatchOutcome → HandlerTrace :=
  let userId := jsOr context.userId "anonymous"
  let displayName := jsOr context.displayName "Anonymous User"
  fun input trackingId outcome =>
    if missingRequired input then
      { result := .failure "Missing required fields: to, subject_suffix, and text are required"
        providerCalls := []
        analytics := [] }
    else
      let footer := buildFooter userId displayName trackingId
      let fullText := input.text.getD "" ++ footer.text
      let fullHtml : Option String :=
        match input.html with
        | some h => if h == "" then none else some (h ++ footer.html)
        | none => none
      let subject := "Odel has sent: " ++ input.subject_suffix.getD ""
      let sent := sendViaResend context.env.RESEND_API_KEY
        "Odel Assistant <noreply@mail.odel.app>" (input.«to».getD "") subject
        fullText fullHtml outcome
      match sent.2 with
      | .ok rid =>
        { result := .success rid (input.«to».getD "")
          providerCalls := [sent.1]
          analytics := [] }
      | .error m =>
        { result := .failure ("Failed to send email: " ++ m)
          providerCalls := [sent.1]
          analytics := [] }

/-- Per-character HTML escaping: the entity for each of the five special
characters, the character itself otherwise.  This is the intended reading of
`escapeHtml`, proved equivalent to the chained replaces below. -/
def escapeHtmlChar (c : Char) : String :=
  if c = '&' then "&amp;"
  else if c = '<' then "&lt;"
  else if c = '>' then "&gt;"
  else if c = '"' then "&quot;"
  else if c = Char.ofNat 39 then "&#039;"
  else String.singleton c

/-- Character-by-character escaping of a whole character list. -/
def escapeList : List Char → List Char
  | [] => []
  | x :: xs => (escapeHtmlChar x).data ++ escapeList xs

/-- Stages two to five of `escapeHtml` (everything after the `&` pass). -/
def escStages (l : List Char) : List Char :=
  replaceCharList (Char.ofNat 39) "&#039;"
    (replaceCharList '"' "&quot;"
      (replaceCharList '>' "&gt;"
        (replaceCharList '<' "&lt;" l)))

/-- `sub` occurs contiguously inside `s`. -/
def containsSub (s sub : String) : Prop :=
  ∃ a b, s = a ++ (sub ++ b)

/-- A concrete caller context used by the concrete-input theorems. -/
def ctxA : ToolContext :=
  { userId := some "user_1", displayName := some "Test User"
    env := { RESEND_API_KEY := "key" } }

/-- The spec's concrete valid input: `to="a@example.com"`, `subject_suffix="Hi"`,
`text="Hello"`, no `html`. -/
def okInput : SendEmailInput :=
  { «to» := some "a@example.com", subject_suffix := some "Hi"
    text := some "Hello", html := none }

/-- A 200 provider response whose JSON body is `\x7b"id":"abc123"\x7d`. -/
def okDispatch : DispatchOutcome :=
  .response { status := 200, text := "\x7b\"id\":\"abc123\"\x7d", json := .obj (some "abc123") }

/-- The valid input with `html` supplied as the empty string. -/
def emptyHtmlInput : SendEmailInput :=
  { «to» := some "a@example.com", subject_suffix := some "Hi"
    text := some "Hello", html := some "" }

/-- The valid input with a non-empty `html` body. -/
def htmlInput : SendEmailInput :=
  { «to» := some "a@example.com", subject_suffix := some "Hi"
    text := some "Hello", html := some "<p>rich</p>" }

/-- Input whose `text` is present but the empty string. -/
def emptyTextInput : SendEmailInput :=
  { «to» := some "a@example.com", subject_suffix := some "Hi"
    text := some "", html := none }

/-- Input with `to` absent at runtime. -/
def missingToInput : SendEmailInput :=
  { «to» := none, subject_suffix := some "Hi", text := some "Hello", html := none }

/-- A 200 provider response whose JSON body is the object `\x7b\x7d`
(valid JSON, no `id` field). -/
def noIdDispatch : DispatchOutcome :=
  .response { status := 200, text := "\x7b\x7d", json := .obj none }

/-! ## Helper lemmas -/

theorem replaceCharList_append (c : Char) (r : String) (a b : List Char) :
    replaceCharList c r (a ++ b) = replaceCharList c r a ++ replaceCharList c r b := by
  induction a with
  | nil => rfl
  | cons x xs ih => simp [replaceCharList, ih, List.append_assoc]

theorem escStages_append (a b : List Char) :
    escStages (a ++ b) = escStages a ++ escStages b := by
  simp [escStages, replaceCharList_append]

/-- The chained single-character replaces of `escapeHtml` act character by
character: no replacement string contains a character that a later stage
replaces, so the chain equals the per-character mapping `escapeList`. -/
theorem escStages_chain (l : List Char) :
    escStages (replaceCharList '&' "&amp;" l) = escapeList l := by
  induction l with
  | nil => rfl
  | cons x xs ih =>
    have h0 : replaceCharList '&' "&amp;" (x :: xs)
        = (if x = '&' then ("&amp;").data else [x]) ++ replaceCharList '&' "&amp;" xs := rfl
    rw [h0, escStages_append, ih]
    show _ ++ escapeList xs = escapeList (x :: xs)
    have hcons : escapeList (x :: xs) = (escapeHtmlChar x).data ++ escapeList xs := rfl
    rw [hcons]
    congr 1
    by_cases h1 : x = '&'
    · subst h1; decide
    · by_cases h2 : x = '<'
      · subst h2; decide
      · by_cases h3 : x = '>'
        · subst h3; decide
        · by_cases h4 : x = '"'
          · subst h4; decide
          · by_cases h5 : x = Char.ofNat 39
            · subst h5; decide
            · simp [h1, escStages, replaceCharList, h2, h3, h4, h5, escapeHtmlChar,
                String.singleton]

/-- `escapeHtml` escapes every one of the five special characters wherever it
occurs and leaves every other character unchanged. -/
theorem escapeHtml_eq_escapeList (s : String) : escapeHtml s = ⟨escapeList s.data⟩ := by
  show (⟨escStages (replaceCharList '&' "&amp;" s.data)⟩ : String) = _
  rw [escStages_chain]

theorem append_ne_empty_left (a b : String) (ha : a ≠ "") : a ++ b ≠ "" := by
  intro h
  apply ha
  have hd := congrArg String.data h
  rw [String.data_append] at hd
  exact String.ext (List.append_eq_nil.mp hd).1

theorem append_ne_empty_right (a b : String) (hb : b ≠ "") : a ++ b ≠ "" := by
  intro h
  apply hb
  have hd := congrArg String.data h
  rw [String.data_append] at hd
  exact String.ext (List.append_eq_nil.mp hd).2

theorem footer_html_ne_empty (u d t : String) : (buildFooter u d t).html ≠ "" := by
  show htmlFooterHead ++ _ ≠ ""
  exact append_ne_empty_left _ _ (by decide)

/-- Because the appended HTML footer is never empty, the second truthiness
check (`...(html && \x7b html \x7d)` in `sendViaResend`) never drops a
composed HTML body: it is the identity on the handler's `fullHtml`. -/
theorem optHtmlIdem (x : Option String) (f : String) (hf : f ≠ "") :
    (match (match x with
        | some h => if h = "" then none else some (h ++ f)
        | none => none : Option String) with
      | some h => if h = "" then none else some h
      | none => none)
    = (match x with
        | some h => if h = "" then none else some (h ++ f)
        | none => none) := by
  cases x with
  | none => rfl
  | some h =>
    by_cases hh : h = ""
    · simp [hh]
    · simp [hh, append_ne_empty_right h f hf]

/-! ## Claims -/

/-- C1 (code bug): the README and spec promise one analytics event per send
attempt (status "sent"/"failed", provider id, pre-footer text length), but
`createSendEmailHandler` contains no analytics-recording code at all: on the
concrete successful send the provider call succeeds yet the recorded-event
trace is empty, and every invocation — success, failure or validation error —
records the empty event list. -/
theorem c1_analytics_code_bug :
    (createSendEmailHandler ctxA okInput "t1" okDispatch).result
        = .success (some "abc123") "a@example.com"
    ∧ (createSendEmailHandler ctxA okInput "t1" okDispatch).analytics = []
    ∧ ∀ (context : ToolContext) (input : SendEmailInput) (trackingId : String)
        (outcome : DispatchOutcome),
        (createSendEmailHandler context input trackingId outcome).analytics = [] := by
  refine ⟨by decide, by decide, ?_⟩
  intro context input trackingId outcome
  simp only [createSendEmailHandler]
  split
  · rfl
  · split <;> rfl

/-- C2 (confirmed): the handler always terminates in one of the two
`SendResult` shapes, and any exception thrown during dispatch (network
failure, provider error, JSON parse error alike) is caught and converted into
the uniform failure shape `"Failed to send email: " ++ message`. -/
theorem c2_no_exception_crosses_boundary (context : ToolContext) (input : SendEmailInput)
    (trackingId : String) (outcome : DispatchOutcome) (m : String)
    (hm : missingRequired input = false) :
    ((∃ i t, (createSendEmailHandler context input trackingId outcome).result = .success i t)
      ∨ (∃ err, (createSendEmailHandler context input trackingId outcome).result = .failure err))
    ∧ (createSendEmailHandler context input trackingId (.exn m)).result
        = .failure ("Failed to send email: " ++ m) := by
  constructor
  · cases hr : (createSendEmailHandler context input trackingId outcome).result with
    | success i t => exact Or.inl ⟨i, t, rfl⟩
    | failure err => exact Or.inr ⟨err, rfl⟩
  · simp [createSendEmailHandler, hm, sendViaResend]

theorem c2_no_exception_crosses_boundary_witness :
    ((∃ i t, (createSendEmailHandler ctxA okInput "t1" okDispatch).result = .success i t)
      ∨ (∃ err, (createSendEmailHandler ctxA okInput "t1" okDispatch).result = .failure err))
    ∧ (createSendEmailHandler ctxA okInput "t1" (.exn "boom")).result
        = .failure ("Failed to send email: " ++ "boom") :=
  c2_no_exception_crosses_boundary ctxA okInput "t1" okDispatch "boom" (by decide)

/-- C3 (corrected, counterexample): with `html` supplied as the empty string —
a valid schema value — the outbound payload carries no `html` field at all
(`none`), not the composed `"" ++ htmlFooter` the claim requires for every
supplied `html`. -/
theorem c3_empty_html_counterexample :
    (createSendEmailHandler ctxA emptyHtmlInput "t1" okDispatch).providerCalls.map
        (fun p => p.html) = [none]
    ∧ decide ((createSendEmailHandler ctxA emptyHtmlInput "t1" okDispatch).providerCalls.map
        (fun p => p.html)
        = [some ("" ++ (buildFooter "user_1" "Test User" "t1").html)]) = false :=
  ⟨by decide, by decide⟩

/-- C3 (amended): for every input passing validation, exactly one provider
payload is posted; its sender is the fixed platform address, its recipient the
input's, its subject the fixed prefix `"Odel has sent: "` followed verbatim by
`subject_suffix`, its plain-text body `text ++ textFooter` (footer appended),
and its `html` field is `input.html ++ htmlFooter` when a non-empty `html` was
supplied, and entirely absent when `html` was not supplied or was the empty
string. -/
theorem c3_payload_composition_amended (context : ToolContext) (input : SendEmailInput)
    (trackingId : String) (outcome : DispatchOutcome) (hv : missingRequired input = false) :
    (createSendEmailHandler context input trackingId outcome).providerCalls.map
        (fun p => p.fromAddr) = ["Odel Assistant <noreply@mail.odel.app>"]
    ∧ (createSendEmailHandler context input trackingId outcome).providerCalls.map
        (fun p => p.«to») = [input.«to».getD ""]
    ∧ (createSendEmailHandler context input trackingId outcome).providerCalls.map
        (fun p => p.subject) = ["Odel has sent: " ++ input.subject_suffix.getD ""]
    ∧ (createSendEmailHandler context input trackingId outcome).providerCalls.map
        (fun p => p.text) = [input.text.getD "" ++ (buildFooter (jsOr context.userId "anonymous")
            (jsOr context.displayName "Anonymous User") trackingId).text]
    ∧ (createSendEmailHandler context input trackingId outcome).providerCalls.map
        (fun p => p.html)
        = [match input.html with
            | some h => if h == "" then none
                else some (h ++ (buildFooter (jsOr context.userId "anonymous")
                  (jsOr context.displayName "Anonymous User") trackingId).html)
            | none => none] := by
  refine ⟨?_, ?_, ?_, ?_, ?_⟩ <;>
    · simp only [createSendEmailHandler, hv, Bool.false_eq_true, if_false]
      cases outcome with
      | exn m =>
        simp [sendViaResend]
        try exact optHtmlIdem input.html _ (footer_html_ne_empty _ _ _)
      | response r =>
        by_cases hok : responseOk r.status
        · cases hj : r.json with
          | invalid m =>
            simp [sendViaResend, hok, hj]
            try exact optHtmlIdem input.html _ (footer_html_ne_empty _ _ _)
          | obj id =>
            simp [sendViaResend, hok, hj]
            try exact optHtmlIdem input.html _ (footer_html_ne_empty _ _ _)
        · simp [sendViaResend, hok]
          try exact optHtmlIdem input.html _ (footer_html_ne_empty _ _ _)

theorem c3_payload_composition_amended_witness :
    (createSendEmailHandler ctxA htmlInput "t1" okDispatch).providerCalls.map
        (fun p => p.fromAddr) = ["Odel Assistant <noreply@mail.odel.app>"]
    ∧ (createSendEmailHandler ctxA htmlInput "t1" okDispatch).providerCalls.map
        (fun p => p.«to») = [htmlInput.«to».getD ""]
    ∧ (createSendEmailHandler ctxA htmlInput "t1" okDispatch).providerCalls.map
        (fun p => p.subject) = ["Odel has sent: " ++ htmlInput.subject_suffix.getD ""]
    ∧ (createSendEmailHandler ctxA htmlInput "t1" okDispatch).providerCalls.map
        (fun p => p.text) = [htmlInput.text.getD "" ++ (buildFooter (jsOr ctxA.userId "anonymous")
            (jsOr ctxA.displayName "Anonymous User") "t1").text]
    ∧ (createSendEmailHandler ctxA htmlInput "t1" okDispatch).providerCalls.map
        (fun p => p.html)
        = [match htmlInput.html with
            | some h => if h == "" then none
                else some (h ++ (buildFooter (jsOr ctxA.userId "anonymous")
                  (jsOr ctxA.displayName "Anonymous User") "t1").html)
            | none => none] :=
  c3_payload_composition_amended ctxA htmlInput "t1" okDispatch (by decide)

/-- C4 (confirmed): whenever `to`, `subject_suffix` or `text` is absent at
runtime, the handler returns the exact missing-required-fields failure and no
provider call is attempted. -/
theorem c4_missing_fields_rejected (context : ToolContext) (input : SendEmailInput)
    (trackingId : String) (outcome : DispatchOutcome)
    (h : input.«to» = none ∨ input.subject_suffix = none ∨ input.text = none) :
    (createSendEmailHandler context input trackingId outcome).result
        = .failure "Missing required fields: to, subject_suffix, and text are required"
    ∧ (createSendEmailHandler context input trackingId outcome).providerCalls = [] := by
  have hm : missingRequired input = true := by
    rcases h with h | h | h <;> simp [missingRequired, jsFalsy, h]
  simp [createSendEmailHandler, hm]

theorem c4_missing_fields_rejected_witness :
    (createSendEmailHandler ctxA missingToInput "t1" okDispatch).result
        = .failure "Missing required fields: to, subject_suffix, and text are required"
    ∧ (createSendEmailHandler ctxA missingToInput "t1" okDispatch).providerCalls = [] :=
  c4_missing_fields_rejected ctxA missingToInput "t1" okDispatch (Or.inl rfl)

/-- C5 (corrected, counterexample): a request whose `text` is present but the
empty string, with a valid `to` and non-empty `subject_suffix`, is rejected by
the falsy required-field check as if `text` were missing, and no provider call
is attempted — the claim says such a request would be sent. -/
theorem c5_empty_text_counterexample :
    (createSendEmailHandler ctxA emptyTextInput "t1" okDispatch).result
        = .failure "Missing required fields: to, subject_suffix, and text are required"
    ∧ (createSendEmailHandler ctxA emptyTextInput "t1" okDispatch).providerCalls = [] :=
  ⟨by decide, by decide⟩

/-- C5 (amended): for every request in which `text` is present but equal to
the empty string, the runtime check treats it as missing (JavaScript
falsiness), so the handler returns the missing-required-fields failure and no
send is attempted, whatever the other fields are. -/
theorem c5_empty_text_rejected_amended (context : ToolContext) (trackingId : String)
    (outcome : DispatchOutcome) (toV sfx : String) (html : Option String) :
    (createSendEmailHandler context ⟨some toV, some sfx, some "", html⟩ trackingId outcome).result
        = .failure "Missing required fields: to, subject_suffix, and text are required"
    ∧ (createSendEmailHandler context
        ⟨some toV, some sfx, some "", html⟩ trackingId outcome).providerCalls = [] := by
  have hm : missingRequired ⟨some toV, some sfx, some "", html⟩ = true := by
    simp [missingRequired, jsFalsy]
  simp [createSendEmailHandler, hm]

/-- C6 (confirmed): on a non-2xx provider response of status `s` with body
`b`, `sendViaResend` raises `"Resend API error: " ++ s ++ " - " ++ b` and the
handler surfaces `"Failed to send email: " ++` that message. -/
theorem c6_provider_error_message (context : ToolContext) (input : SendEmailInput)
    (trackingId : String) (s : Nat) (b : String) (j : JsonOutcome)
    (apiKey fromAddr toA subject text : String) (html : Option String)
    (hv : missingRequired input = false) (hs : responseOk s = false) :
    (sendViaResend apiKey fromAddr toA subject text html (.response ⟨s, b, j⟩)).2
        = .error ("Resend API error: " ++ toString s ++ " - " ++ b)
    ∧ (createSendEmailHandler context input trackingId (.response ⟨s, b, j⟩)).result
        = .failure ("Failed to send email: "
            ++ ("Resend API error: " ++ toString s ++ " - " ++ b)) := by
  constructor
  · simp [sendViaResend, hs]
  · simp [createSendEmailHandler, hv, sendViaResend, hs]

theorem c6_provider_error_message_witness :
    (sendViaResend "key" "Odel Assistant <noreply@mail.odel.app>" "a@example.com"
        "Odel has sent: Hi" "Hello" none (.response ⟨422, "bad request", .obj none⟩)).2
        = .error "Resend API error: 422 - bad request"
    ∧ (createSendEmailHandler ctxA okInput "t1"
        (.response ⟨422, "bad request", .obj none⟩)).result
        = .failure "Failed to send email: Resend API error: 422 - bad request" :=
  c6_provider_error_message ctxA okInput "t1" 422 "bad request" (.obj none)
    "key" "Odel Assistant <noreply@mail.odel.app>" "a@example.com"
    "Odel has sent: Hi" "Hello" none (by decide) (by decide)

/-- C7 (confirmed): for every valid input and every 2xx provider response
whose JSON body carries `id = X`, the handler returns success with exactly
that id and the request's recipient echoed unchanged. -/
theorem c7_success_echoes_recipient (context : ToolContext) (trackingId : String)
    (toV sfx tx : String) (html : Option String) (st : Nat) (b : String) (X : String)
    (hto : toV ≠ "") (hsfx : sfx ≠ "") (htx : tx ≠ "") (hst : responseOk st = true) :
    (createSendEmailHandler context ⟨some toV, some sfx, some tx, html⟩ trackingId
        (.response ⟨st, b, .obj (some X)⟩)).result = .success (some X) toV := by
  have hv : missingRequired ⟨some toV, some sfx, some tx, html⟩ = false := by
    simp [missingRequired, jsFalsy, hto, hsfx, htx]
  simp [createSendEmailHandler, hv, sendViaResend, hst]

theorem c7_success_echoes_recipient_witness :
    (createSendEmailHandler ctxA ⟨some "a@example.com", some "Hi", some "Hello", none⟩ "t1"
        (.response ⟨200, "\x7b\"id\":\"abc123\"\x7d", .obj (some "abc123")⟩)).result
        = .success (some "abc123") "a@example.com" :=
  c7_success_echoes_recipient ctxA "t1" "a@example.com" "Hi" "Hello" none 200
    "\x7b\"id\":\"abc123\"\x7d" "abc123" (by decide) (by decide) (by decide) (by decide)

/-- C8 (confirmed): for every `displayName`, the plain-text footer embeds it
raw while the HTML footer embeds `escapeHtml displayName`, which maps each of
the five characters `& < > " '` to its HTML entity and every other character
to itself; both footers embed the same abuse-report URL carrying the tracking
id as the `id` query parameter. -/
theorem c8_footer_escaping (userId displayName trackingId : String) :
    containsSub (buildFooter userId displayName trackingId).text displayName
    ∧ containsSub (buildFooter userId displayName trackingId).html (escapeHtml displayName)
    ∧ containsSub (buildFooter userId displayName trackingId).text (reportUrl trackingId)
    ∧ containsSub (buildFooter userId displayName trackingId).html (reportUrl trackingId)
    ∧ reportUrl trackingId = "https://odel.app/report-abuse?id=" ++ trackingId
    ∧ escapeHtml displayName = ⟨escapeList displayName.data⟩
    ∧ escapeHtml "&" = "&amp;" ∧ escapeHtml "<" = "&lt;" ∧ escapeHtml ">" = "&gt;"
    ∧ escapeHtml "\"" = "&quot;" ∧ escapeHtml "\x27" = "&#039;" := by
  refine ⟨?_, ?_, ?_, ?_, rfl, escapeHtml_eq_escapeList displayName,
    by decide, by decide, by decide, by decide, by decide⟩
  · exact ⟨textFooterHead, textFooterMid1 ++ (userId ++ (textFooterMid2
      ++ (reportUrl trackingId ++ "\n"))), rfl⟩
  · exact ⟨htmlFooterHead, htmlFooterMid1 ++ (userId ++ (htmlFooterMid2
      ++ (reportUrl trackingId ++ htmlFooterTail))), rfl⟩
  · refine ⟨textFooterHead ++ (displayName ++ (textFooterMid1
      ++ (userId ++ textFooterMid2))), "\n", ?_⟩
    simp [buildFooter, String.append_assoc]
  · refine ⟨htmlFooterHead ++ (escapeHtml displayName ++ (htmlFooterMid1
      ++ (userId ++ htmlFooterMid2))), htmlFooterTail, ?_⟩
    simp [buildFooter, String.append_assoc]

/-- C9 (code bug): on a 2xx provider response whose valid-JSON body lacks the
`id` field, the unchecked `as \x7b id: string \x7d` cast lets the handler
report success with an `undefined` id instead of failing: the result is
`success` with `id = none`, not the generic failure the claim requires. -/
theorem c9_missing_id_code_bug :
    (createSendEmailHandler ctxA okInput "t1" noIdDispatch).result
        = .success none "a@example.com" := by
  decide

/-- C10 (confirmed): a caller context supplying `userId` or `displayName` as
a present-but-empty string behaves exactly like one with the field absent —
the `||` fallback substitutes the sentinel defaults `"anonymous"` and
`"Anonymous User"` in both cases, so an empty string is never propagated into
the composed email. -/
theorem c10_empty_context_defaults (e : Env) (u d : Option String)
    (input : SendEmailInput) (trackingId : String) (outcome : DispatchOutcome) :
    createSendEmailHandler { userId := some "", displayName := d, env := e }
        input trackingId outcome
      = createSendEmailHandler { userId := none, displayName := d, env := e }
        input trackingId outcome
    ∧ createSendEmailHandler { userId := u, displayName := some "", env := e }
        input trackingId outcome
      = createSendEmailHandler { userId := u, displayName := none, env := e }
        input trackingId outcome
    ∧ jsOr (some "") "anonymous" = "anonymous"
    ∧ jsOr none "anonymous" = "anonymous"
    ∧ jsOr (some "") "Anonymous User" = "Anonymous User"
    ∧ jsOr none "Anonymous User" = "Anonymous User" :=
  ⟨rfl, rfl, rfl, rfl, rfl, rfl⟩

end EmailSimple
